import Mathlib

set_option maxRecDepth 4096

/-!
Shallow embedding of the homebridge-thermsmart-sensor protocol core.

The repository has three source files:
* `therm-smart.js` (the `ThermSmart` class): BCD codec, radio power-on wait
  with a 5-second timeout, advertisement scan with a discover handler,
  connect / characteristic-discovery / subscribe chain, and the
  `write(data, responseCommand)` command/response primitive.
* `therm-smart-sensor.js` (the `ThermSmartSensor` class): a legacy
  connection-oriented variant with `isPoweredOn`, `scan`, `connect`,
  `handleDisconnect`, `loadTemperatureData` and the byte-field decoders
  `readTemperature` / `readRelativeHumidity`.
* `scripts/listen.js`: CLI glue around `ThermSmart.scanForReadings`.

Pure functions are translated directly; the event-driven promise code is
modelled as executable folds over explicit event traces, where a trace entry
is one radio-layer event (notification, write acknowledgement, state change,
elapsed time, disconnect) delivered to the registered handlers in order.
-/

/-! ### Time codec (therm-smart.js lines 12-18)

`bcdByteToInt = b => (((b & 0xf0) >> 4) * 10) + (b & 0xf)`
`intToBCDByte = i => ((i / 10) << 4) + (i % 10)`

For the inputs used (0 ≤ i ≤ 99) the JavaScript `(i / 10) << 4` truncates
the float quotient toward zero, i.e. floor division. -/

def bcdByteToInt (b : Nat) : Nat :=
  ((b &&& 0xf0) >>> 4) * 10 + (b &&& 0xf)

def intToBCDByte (i : Nat) : Nat :=
  ((i / 10) <<< 4) + (i % 10)

/-! ### Humidity decoder (therm-smart-sensor.js lines 60-62)

`readRelativeHumidity = (data, position) =>
   parseInt(data.toString('hex', position, position + 1))`

`Buffer.toString('hex', p, p+1)` renders one byte as exactly two lowercase
hex characters (zero-padded); an out-of-range slice renders as the empty
string. `parseInt` with no radix argument (and no `0x` prefix, which two
hex digits can never form) parses the longest leading run of decimal
digits in base 10 and yields NaN when that run is empty. NaN is modelled
as `none`. -/

def byteToHexChars (b : Nat) : List Char :=
  [Nat.digitChar (b / 16 % 16), Nat.digitChar (b % 16)]

def jsParseIntDec (s : List Char) : Option Nat :=
  let digits := s.takeWhile (fun c => c.isDigit)
  if digits.isEmpty then none
  else some (digits.foldl (fun a c => a * 10 + (c.toNat - 48)) 0)

def readRelativeHumidity (data : List Nat) (position : Nat) : Option Nat :=
  match data.get? position with
  | none => none
  | some b => jsParseIntDec (byteToHexChars b)

/-- Helper: the BCD round trip checked over all hundred in-range values. -/
theorem bcd_roundtrip_fin :
    ∀ n : Fin 100,
      bcdByteToInt (intToBCDByte n.val) = n.val ∧
      intToBCDByte n.val = 16 * (n.val / 10) + n.val % 10 := by
  decide

/-- C4: for every integer n with 0 ≤ n ≤ 99, `bcdByteToInt (intToBCDByte n) = n`,
and the encoding packs the tens digit in the high nibble and the ones digit
in the low nibble (`intToBCDByte n = 16 * (n / 10) + n % 10`). -/
theorem bcd_encode_decode_roundtrip (n : Nat) (h : n ≤ 99) :
    bcdByteToInt (intToBCDByte n) = n ∧
    intToBCDByte n = 16 * (n / 10) + n % 10 :=
  bcd_roundtrip_fin ⟨n, by omega⟩

/-- Witness for C4 at n = 34. -/
theorem bcd_encode_decode_roundtrip_witness :
    bcdByteToInt (intToBCDByte 34) = 34 ∧
    intToBCDByte 34 = 16 * (34 / 10) + 34 % 10 :=
  bcd_encode_decode_roundtrip 34 (by decide)

/-- C3 counterexample: the humidity decoder does NOT read the two hex digits
of every byte as a decimal number. On byte 0x2C the buffer renders as "2c"
and `parseInt` stops at the letter, yielding 2, not the claimed 28. -/
theorem readRelativeHumidity_0x2C_cex :
    readRelativeHumidity [0x2c] 0 = some 2 ∧ (2 : Nat) ≠ 28 := by
  decide

/-- C3 amended: for a byte both of whose nibbles are at most 9 the decoder
returns the two hex digits read as a decimal number (so 0x34 decodes to 34);
for a byte whose hex rendering contains a letter, `parseInt` truncates at the
first non-decimal-digit character, so 0x2C decodes to 2 (not 28), and a byte
with a letter in the leading position, such as 0xC2, yields NaN. -/
theorem readRelativeHumidity_amended :
    (∀ b : Fin 256, b.val / 16 ≤ 9 → b.val % 16 ≤ 9 →
      readRelativeHumidity [b.val] 0 = some (10 * (b.val / 16) + b.val % 16)) ∧
    readRelativeHumidity [0x2c] 0 = some 2 ∧
    readRelativeHumidity [0xc2] 0 = none := by
  refine ⟨?_, by decide, by decide⟩
  decide

/-- Witness for C3's amended claim at byte 0x34 (decodes to 34). -/
theorem readRelativeHumidity_amended_witness :
    readRelativeHumidity [0x34] 0 = some (10 * (0x34 / 16) + 0x34 % 16) :=
  readRelativeHumidity_amended.1 ⟨0x34, by decide⟩ (by decide) (by decide)

/-! ### Reading scan discover handler (therm-smart.js lines 91-116)

`ThermSmart.scanForReadings` installs a `discover` handler that, per
peripheral:
* reads `peripheral.advertisement.manufacturerData` and immediately accesses
  `data.length` — a `TypeError` is thrown when the field is absent;
* discards when `data.length < 9 || data.readUInt16LE(0) !== COMPANY_ID`;
* computes `address = peripheral.address && peripheral.address.replace(/:/g, '')`
  and discards when `address` is truthy and
  `data.readUIntLE(2, 6).toString(16) !== address` (JavaScript
  `Number.toString(16)` renders lowercase hex with no leading zeros);
* discards when an allowlist is given and does not contain `address`;
* otherwise hands `data.slice(8)` to the reading parser and invokes the
  reading callback once per parsed reading.

A missing/undefined peripheral address is modelled as the empty string,
which is falsy in JavaScript exactly like the empty string. -/

def COMPANY_ID : Nat := 0x4842

def stripColons (s : String) : String :=
  String.mk (s.toList.filter (fun c => c ≠ ':'))

def readUInt16LE (data : List Nat) (pos : Nat) : Nat :=
  data.getD pos 0 + 256 * data.getD (pos + 1) 0

def readUIntLE (data : List Nat) (pos : Nat) : Nat → Nat
  | 0 => 0
  | n + 1 => data.getD pos 0 + 256 * readUIntLE data (pos + 1) n

def natToHex (n : Nat) : String :=
  String.mk (Nat.toDigits 16 n)

structure Peripheral where
  address : String
  manufacturerData : Option (List Nat)
deriving DecidableEq

inductive ScanOutcome
  /-- The handler threw inside the event listener (TypeError on
  `data.length` when the manufacturer-data field is absent). -/
  | threw
  /-- The advertisement was discarded: the reading callback never fires. -/
  | discarded
  /-- The payload after the 8-byte header is handed to the reading parser
  and the callback fires once per parsed reading. -/
  | delivered (payload : List Nat)
deriving DecidableEq

def discoverHandler (allow : Option (List String)) (p : Peripheral) :
    ScanOutcome :=
  match p.manufacturerData with
  | none => ScanOutcome.threw
  | some data =>
    if data.length < 9 ∨ readUInt16LE data 0 ≠ COMPANY_ID then
      ScanOutcome.discarded
    else
      let address := stripColons p.address
      if address ≠ "" ∧ natToHex (readUIntLE data 2 6) ≠ address then
        ScanOutcome.discarded
      else
        match allow with
        | some l =>
          if address ∈ l then ScanOutcome.delivered (data.drop 8)
          else ScanOutcome.discarded
        | none => ScanOutcome.delivered (data.drop 8)

/-- C6: during a reading scan, for a discovered peripheral with a nonempty
advertised address that passes the length and company-id checks, whenever the
address re-derived from bytes 2-7 of the manufacturer data (read
little-endian, rendered as lowercase hex) differs from the peripheral's own
colon-stripped address, the advertisement is discarded and no reading
callback fires. -/
theorem scan_address_crosscheck (allow : Option (List String)) (p : Peripheral)
    (data : List Nat) (hd : p.manufacturerData = some data)
    (hlen : 9 ≤ data.length) (hcid : readUInt16LE data 0 = COMPANY_ID)
    (haddr : stripColons p.address ≠ "")
    (hmm : natToHex (readUIntLE data 2 6) ≠ stripColons p.address) :
    discoverHandler allow p = ScanOutcome.discarded := by
  have h1 : ¬(data.length < 9 ∨ readUInt16LE data 0 ≠ COMPANY_ID) := by
    push_neg
    exact ⟨by omega, hcid⟩
  simp only [discoverHandler, hd, if_neg h1]
  rw [if_pos ⟨haddr, hmm⟩]

/-- Witness for C6: a frame with the correct company id whose embedded
address (aabbccddeeff) differs from the peripheral's advertised address
(aa:bb:cc:dd:ee:00) is discarded. -/
theorem scan_address_crosscheck_witness :
    discoverHandler none
      ⟨"aa:bb:cc:dd:ee:00",
        some [0x42, 0x48, 0xff, 0xee, 0xdd, 0xcc, 0xbb, 0xaa, 0x00]⟩ =
      ScanOutcome.discarded :=
  scan_address_crosscheck none _ _ rfl (by decide) (by decide) (by decide)
    (by decide)

/-- C7: a discovered peripheral whose manufacturer data is shorter than 9
bytes, or whose leading 2-byte little-endian company identifier differs from
0x4842, is discarded: the reading callback is never invoked. -/
theorem scan_length_company_filter (allow : Option (List String))
    (p : Peripheral) (data : List Nat) (hd : p.manufacturerData = some data)
    (h : data.length < 9 ∨ readUInt16LE data 0 ≠ COMPANY_ID) :
    discoverHandler allow p = ScanOutcome.discarded := by
  simp only [discoverHandler, hd, if_pos h]

/-- Witness for C7: an 8-byte manufacturer-data frame is discarded. -/
theorem scan_length_company_filter_witness :
    discoverHandler none
      ⟨"aabbccddeeff", some [0x42, 0x48, 0xff, 0xee, 0xdd, 0xcc, 0xbb, 0xaa]⟩ =
      ScanOutcome.discarded :=
  scan_length_company_filter none _ _ rfl (by decide)

/-- C10: the discover handler reads `data.length` before any validation, so a
peripheral advertising the service but carrying no manufacturer-data field
makes the handler throw inside the event listener instead of cleanly
discarding the advertisement. -/
theorem scan_missing_manufacturer_data_throws (allow : Option (List String))
    (p : Peripheral) (h : p.manufacturerData = none) :
    discoverHandler allow p = ScanOutcome.threw ∧
    discoverHandler allow p ≠ ScanOutcome.discarded := by
  exact ⟨by simp [discoverHandler, h], by simp [discoverHandler, h]⟩

/-- Witness for C10: a peripheral with no manufacturer data throws. -/
theorem scan_missing_manufacturer_data_throws_witness :
    discoverHandler none ⟨"aabbccddeeff", none⟩ = ScanOutcome.threw ∧
    discoverHandler none ⟨"aabbccddeeff", none⟩ ≠ ScanOutcome.discarded :=
  scan_missing_manufacturer_data_throws none _ rfl

/-! ### Radio power-on wait (therm-smart.js lines 21-42 and
therm-smart-sensor.js lines 74-90)

`ThermSmart.powerOn` resolves immediately when `noble.state` is already
`'poweredOn'`; otherwise it registers a `stateChange` listener that resolves
on the first `'poweredOn'` state, AND a `setTimeout` of 5000 ms that rejects
with a timeout error when it fires first.

`ThermSmartSensor.isPoweredOn` is the same wait WITHOUT any timeout: it only
registers the `stateChange` listener.

Both are modelled as folds over a trace of radio events in delivery order; a
`tick ms` entry models `ms` milliseconds of real time passing with no state
change, during which a registered timer fires once its total delay has
elapsed. -/

inductive REv
  | stateChange (s : String)
  | tick (ms : Nat)
deriving DecidableEq

inductive RadioOutcome
  | resolved
  | rejected
  | pending
deriving DecidableEq

def tickSum : List REv → Nat
  | [] => 0
  | REv.tick ms :: rest => ms + tickSum rest
  | REv.stateChange _ :: rest => tickSum rest

def powerOnGo (elapsed : Nat) : List REv → RadioOutcome
  | [] => RadioOutcome.pending
  | REv.stateChange s :: rest =>
    if s = "poweredOn" then RadioOutcome.resolved else powerOnGo elapsed rest
  | REv.tick ms :: rest =>
    if 5000 ≤ elapsed + ms then RadioOutcome.rejected
    else powerOnGo (elapsed + ms) rest

def powerOnRun (initState : String) (evs : List REv) : RadioOutcome :=
  if initState = "poweredOn" then RadioOutcome.resolved else powerOnGo 0 evs

def isPoweredOnGo : List REv → RadioOutcome
  | [] => RadioOutcome.pending
  | REv.stateChange s :: rest =>
    if s = "poweredOn" then RadioOutcome.resolved else isPoweredOnGo rest
  | REv.tick _ :: rest => isPoweredOnGo rest

def isPoweredOnRun (initState : String) (evs : List REv) : RadioOutcome :=
  if initState = "poweredOn" then RadioOutcome.resolved else isPoweredOnGo evs

/-- C5 counterexample: `ThermSmartSensor.isPoweredOn` is an entry point that
waits for radio readiness yet registers no timeout: starting from a
non-powered radio, after 6000 ms with no power-on event it is still pending
(not rejected), while `ThermSmart.powerOn` has rejected on the same trace. -/
theorem radio_wait_timeout_cex :
    isPoweredOnRun "poweredOff" [REv.tick 6000] = RadioOutcome.pending ∧
    RadioOutcome.pending ≠ RadioOutcome.rejected ∧
    powerOnRun "poweredOff" [REv.tick 6000] = RadioOutcome.rejected := by
  decide

/-- Helper for C5: `powerOnGo` rejects once the accumulated time reaches the
5000 ms timer, provided no power-on event arrives first. -/
theorem powerOnGo_rejects (evs : List REv) :
    ∀ elapsed, elapsed < 5000 →
      (∀ e ∈ evs, e ≠ REv.stateChange "poweredOn") →
      5000 ≤ elapsed + tickSum evs →
      powerOnGo elapsed evs = RadioOutcome.rejected := by
  induction evs with
  | nil =>
    intro elapsed hlt _ hsum
    simp [tickSum] at hsum
    omega
  | cons e rest ih =>
    intro elapsed hlt hnp hsum
    cases e with
    | stateChange s =>
      have hs : s ≠ "poweredOn" := by
        intro hcontra
        exact hnp (REv.stateChange s) (by simp) (by rw [hcontra])
      simp only [powerOnGo, if_neg hs]
      exact ih elapsed hlt (fun e he => hnp e (by simp [he])) (by simpa [tickSum] using hsum)
    | tick ms =>
      by_cases hfire : 5000 ≤ elapsed + ms
      · simp [powerOnGo, hfire]
      · simp only [powerOnGo, if_neg hfire]
        exact ih (elapsed + ms) (by omega) (fun e he => hnp e (by simp [he]))
          (by simp [tickSum] at hsum ⊢; omega)

/-- Helper for C5: `isPoweredOnGo` stays pending on any trace with no
power-on event. -/
theorem isPoweredOnGo_pending (evs : List REv)
    (hnp : ∀ e ∈ evs, e ≠ REv.stateChange "poweredOn") :
    isPoweredOnGo evs = RadioOutcome.pending := by
  induction evs with
  | nil => rfl
  | cons e rest ih =>
    cases e with
    | stateChange s =>
      have hs : s ≠ "poweredOn" := by
        intro hcontra
        exact hnp (REv.stateChange s) (by simp) (by rw [hcontra])
      simp only [isPoweredOnGo, if_neg hs]
      exact ih (fun e he => hnp e (by simp [he]))
    | tick ms =>
      simp only [isPoweredOnGo]
      exact ih (fun e he => hnp e (by simp [he]))

/-- C5 amended: when the radio never reaches the powered-on state,
`ThermSmart.powerOn` rejects once the fixed 5-second timer has elapsed, but
`ThermSmartSensor.isPoweredOn` registers no timeout and remains pending
forever on the same trace. -/
theorem radio_wait_timeout_amended (st : String) (evs : List REv)
    (hst : st ≠ "poweredOn")
    (hnp : ∀ e ∈ evs, e ≠ REv.stateChange "poweredOn")
    (hsum : 5000 ≤ tickSum evs) :
    powerOnRun st evs = RadioOutcome.rejected ∧
    isPoweredOnRun st evs = RadioOutcome.pending := by
  refine ⟨?_, ?_⟩
  · simp only [powerOnRun, if_neg hst]
    exact powerOnGo_rejects evs 0 (by omega) hnp (by omega)
  · simp only [isPoweredOnRun, if_neg hst]
    exact isPoweredOnGo_pending evs hnp

/-- Witness for C5's amended claim: radio stays off for 6000 ms. -/
theorem radio_wait_timeout_amended_witness :
    powerOnRun "poweredOff" [REv.tick 6000] = RadioOutcome.rejected ∧
    isPoweredOnRun "poweredOff" [REv.tick 6000] = RadioOutcome.pending :=
  radio_wait_timeout_amended "poweredOff" [REv.tick 6000] (by decide)
    (by decide) (by decide)

/-! ### Command/response write (therm-smart.js lines 235-258)

`write(data, responseCommand)` creates a promise that:
* when `responseCommand !== null`, registers `dataHandler` on the notify
  characteristic BEFORE issuing the write; `dataHandler` resolves with the
  first notification whose byte 0 strictly equals `responseCommand` and
  removes itself; non-matching notifications are silently skipped;
* issues `writeCharacteristic.write(data, false, cb)`; on a write error the
  handler is removed and the promise rejects; on success with
  `responseCommand === null` the promise resolves with no payload;
* registers NO `disconnect` listener of any kind: a peripheral disconnect
  event settles nothing.

The null sentinel is modelled as `none`; the event trace carries the
notification deliveries, the write acknowledgement and any disconnect, in
arrival order, and the fold settles at the first resolving/rejecting event
(a promise settles once). JavaScript `receivedData[0]` on an empty buffer is
`undefined`, which never equals a numeric command, hence `head?`. -/

inductive WEv
  | notif (d : List Nat)
  | writeAck (err : Bool)
  | disconnect
deriving DecidableEq

inductive WriteOutcome
  | resolved (d : Option (List Nat))
  | rejected
  | pending
deriving DecidableEq

def writeRun (rc : Option Nat) : List WEv → WriteOutcome
  | [] => WriteOutcome.pending
  | WEv.notif d :: rest =>
    match rc with
    | some x =>
      if d.head? = some x then WriteOutcome.resolved (some d)
      else writeRun rc rest
    | none => writeRun rc rest
  | WEv.writeAck err :: rest =>
    if err then WriteOutcome.rejected
    else
      match rc with
      | none => WriteOutcome.resolved none
      | some _ => writeRun rc rest
  | WEv.disconnect :: rest => writeRun rc rest

/-- Helper for C1: notifications whose first byte does not match the
expected response code are skipped without settling the write. -/
theorem writeRun_skips_mismatches (x : Nat) (pre : List (List Nat))
    (hpre : ∀ e ∈ pre, e.head? ≠ some x) (tail : List WEv) :
    writeRun (some x) (pre.map WEv.notif ++ tail) =
      writeRun (some x) tail := by
  induction pre with
  | nil => rfl
  | cons d rest ih =>
    have hd : d.head? ≠ some x := hpre d (by simp)
    simp only [List.map_cons, List.cons_append, writeRun, if_neg hd]
    exact ih (fun e he => hpre e (by simp [he]))

/-- C1: after the write is acknowledged, `write(payload, some X)` resolves
with the first subsequently received notification payload whose first byte
equals X, and a stream of notifications whose first bytes all differ from X
leaves the call pending — discarded without failing or resolving it. -/
theorem write_response_correlation (x : Nat) (pre : List (List Nat))
    (d : List Nat) (hpre : ∀ e ∈ pre, e.head? ≠ some x)
    (hd : d.head? = some x) :
    writeRun (some x)
        (WEv.writeAck false :: (pre.map WEv.notif ++ [WEv.notif d])) =
      WriteOutcome.resolved (some d) ∧
    writeRun (some x) (WEv.writeAck false :: pre.map WEv.notif) =
      WriteOutcome.pending := by
  constructor
  · simp only [writeRun, if_neg (Bool.false_ne_true)]
    rw [writeRun_skips_mismatches x pre hpre]
    simp [writeRun, hd]
  · simp only [writeRun, if_neg (Bool.false_ne_true)]
    rw [show pre.map WEv.notif = pre.map WEv.notif ++ [] by simp,
      writeRun_skips_mismatches x pre hpre]
    rfl

/-- Witness for C1: expecting 0xd2, a 0xd1-notification is skipped and the
following 0xd2-notification resolves the call. -/
theorem write_response_correlation_witness :
    writeRun (some 0xd2)
        (WEv.writeAck false ::
          ([[0xd1, 0x01]].map WEv.notif ++ [WEv.notif [0xd2, 0x30]])) =
      WriteOutcome.resolved (some [0xd2, 0x30]) ∧
    writeRun (some 0xd2) (WEv.writeAck false :: [[0xd1, 0x01]].map WEv.notif) =
      WriteOutcome.pending :=
  write_response_correlation 0xd2 [[0xd1, 0x01]] [0xd2, 0x30] (by decide)
    (by decide)

/-- C2 counterexample: a disconnect arriving while `write(payload, some 0xd2)`
awaits its matching response settles nothing — the call stays pending, it is
not rejected. -/
theorem write_disconnect_cex :
    writeRun (some 0xd2) [WEv.writeAck false, WEv.disconnect] =
      WriteOutcome.pending ∧
    WriteOutcome.pending ≠ WriteOutcome.rejected := by
  decide

/-- C2 amended: `write` registers no disconnect listener, so a disconnect
event delivered while the call is still pending leaves it pending — the
suspended call remains forever unresolved rather than failing with an
unexpected-disconnect error. -/
theorem write_disconnect_leaves_pending (rc : Option Nat) (evs : List WEv)
    (h : writeRun rc evs = WriteOutcome.pending) :
    writeRun rc (evs ++ [WEv.disconnect]) = WriteOutcome.pending := by
  induction evs with
  | nil => simp [writeRun]
  | cons e rest ih =>
    cases e with
    | notif d =>
      cases rc with
      | none =>
        simp only [writeRun, List.cons_append] at h ⊢
        exact ih h
      | some x =>
        by_cases hm : d.head? = some x
        · simp [writeRun, hm] at h
        · simp only [writeRun, List.cons_append, if_neg hm] at h ⊢
          exact ih h
    | writeAck err =>
      cases err with
      | true => simp [writeRun] at h
      | false =>
        cases rc with
        | none => simp [writeRun] at h
        | some x =>
          simp only [writeRun, List.cons_append, if_neg Bool.false_ne_true] at h ⊢
          exact ih h
    | disconnect =>
      simp only [writeRun, List.cons_append] at h ⊢
      exact ih h

/-- Witness for C2's amended claim: an acknowledged write awaiting response
0xd2 stays pending when the disconnect arrives. -/
theorem write_disconnect_leaves_pending_witness :
    writeRun (some 0xd2) ([WEv.writeAck false] ++ [WEv.disconnect]) =
      WriteOutcome.pending :=
  write_disconnect_leaves_pending (some 0xd2) [WEv.writeAck false] (by decide)

/-! ### Connect flows (therm-smart.js lines 162-185 and
therm-smart-sensor.js lines 92-183)

`ThermSmart.connect` builds a promise that resolves immediately when
`this.peripheral.state === 'connected'` and otherwise calls
`peripheral.connect`; in EITHER case the promise chain then runs
`_getCharacteristics()` and `_setupListeners()` (characteristic discovery
and notify subscription) again.

`ThermSmartSensor.connect` first runs `scan()` — which returns the cached
peripheral without scanning when `this.peripheral !== null` — and then, when
`peripheral.state === 'connected'`, returns the peripheral at once WITHOUT
re-running connection, characteristic discovery or subscription.

Each flow is modelled by the list of radio operations it performs, in
order. -/

inductive ConnectAction
  | scanForPeripheral
  | connectPeripheral
  | discoverCharacteristics
  | subscribe
deriving DecidableEq

def thermSmartConnectActions (peripheralConnected : Bool) :
    List ConnectAction :=
  (if peripheralConnected then [] else [ConnectAction.connectPeripheral]) ++
    [ConnectAction.discoverCharacteristics, ConnectAction.subscribe]

def sensorScanActions (peripheralCached : Bool) : List ConnectAction :=
  if peripheralCached then [] else [ConnectAction.scanForPeripheral]

def sensorConnectActions (peripheralCached peripheralConnected : Bool) :
    List ConnectAction :=
  sensorScanActions peripheralCached ++
    (if peripheralConnected then []
     else [ConnectAction.connectPeripheral,
       ConnectAction.discoverCharacteristics, ConnectAction.subscribe])

/-- C9 counterexample: `ThermSmart.connect` on an already-connected session
is NOT idempotent in the claimed sense: it skips only the radio connect and
still re-runs characteristic discovery and the notify subscription. -/
theorem connect_idempotent_cex :
    thermSmartConnectActions true =
      [ConnectAction.discoverCharacteristics, ConnectAction.subscribe] ∧
    thermSmartConnectActions true ≠ [] := by
  decide

/-- C9 amended: `ThermSmartSensor.connect` on a Ready session (peripheral
cached and connected) performs no scan, connection, characteristic-discovery
or subscription work and resolves at once, while `ThermSmart.connect` on an
already-connected peripheral skips only the connection step and repeats
characteristic discovery and subscription. -/
theorem connect_idempotent_amended :
    sensorConnectActions true true = [] ∧
    thermSmartConnectActions true =
      [ConnectAction.discoverCharacteristics, ConnectAction.subscribe] := by
  decide

/-! ### Sensor session teardown on disconnect (therm-smart-sensor.js lines
64-72 and 185-191)

The `ThermSmartSensor` constructor initialises `peripheral`,
`writeCharacteristic`, `notifyCharacteristic` and `temperatureData` to
`null`; `scan()` registers `handleDisconnect` via
`peripheral.once('disconnect', ...)`, and `handleDisconnect` assigns `null`
to all four fields. `scan()` reuses `this.peripheral` only when it is not
`null`, so after a disconnect the next connect must discover a fresh
peripheral (and with it fresh characteristic handles), and the
`temperatureData` cache cannot serve a stale payload. -/

structure SensorState where
  peripheral : Option Nat
  writeCharacteristic : Option Nat
  notifyCharacteristic : Option Nat
  temperatureData : Option (List Nat)
deriving DecidableEq

def handleDisconnect (s : SensorState) : SensorState :=
  { s with
    peripheral := none
    writeCharacteristic := none
    notifyCharacteristic := none
    temperatureData := none }

def scanResolvesTo (s : SensorState) (fresh : Nat) : Nat :=
  match s.peripheral with
  | some p => p
  | none => fresh

/-- C8: on any disconnect the sensor session clears its peripheral handle,
both resolved characteristic handles and the cached command payload, and a
subsequent scan resolves to the freshly discovered peripheral rather than
reusing a stale handle from the previous connection. -/
theorem disconnect_clears_session (s : SensorState) (fresh : Nat) :
    (handleDisconnect s).peripheral = none ∧
    (handleDisconnect s).writeCharacteristic = none ∧
    (handleDisconnect s).notifyCharacteristic = none ∧
    (handleDisconnect s).temperatureData = none ∧
    scanResolvesTo (handleDisconnect s) fresh = fresh := by
  simp [handleDisconnect, scanResolvesTo]
